import Mathlib

/-!
Shallow embedding of `ghl_dashboard_real.py`, a single-file Streamlit
dashboard. The module holds literal metric dictionaries (the metrics
provider `load_real_ghl_data`) and three page renderers
(`show_executive_summary`, `show_business_questions`,
`show_segmentation_metrics`). Python floats are embedded as rationals
(all literals in the source are short decimals), Python dicts that are
only iterated in insertion order are embedded as association lists in
source order, and the module-level numpy random generator used by
Chart A is embedded as an explicit draw oracle passed to the renderer.
-/

namespace Doda

/-- `ContactMetrics`: the `contacts_data` dictionary of
`load_real_ghl_data` (lines 62-76). -/
structure ContactMetrics where
  total_contacts : Nat
  contacts_with_email : Nat
  contacts_with_phone : Nat
  email_rate : ℚ
  phone_rate : ℚ
  avg_completeness : ℚ
  segmentation : List (String × ℚ)
deriving DecidableEq, Repr, Inhabited

/-- `EventMetrics`: the `events_data` dictionary (lines 79-90). -/
structure EventMetrics where
  total_events : Nat
  avg_duration : ℚ
  business_hours_rate : ℚ
  weekend_rate : ℚ
  status_distribution : List (String × ℚ)
deriving DecidableEq, Repr, Inhabited

/-- The `attendance_by_day` group of `business_answers` (lines 94-102). -/
structure AttendanceByDay where
  mejor_dia : Nat
  mejor_tasa : ℚ
  peor_dia : Nat
  peor_tasa : ℚ
  inicio_mes : ℚ
  medio_mes : ℚ
  final_mes : ℚ
deriving DecidableEq, Repr, Inhabited

/-- The `lead_time_analysis` group of `business_answers` (lines 103-108). -/
structure LeadTimeAnalysis where
  optimal_window : String
  optimal_rate : ℚ
  same_day_rate : ℚ
  correlation : ℚ
deriving DecidableEq, Repr, Inhabited

/-- The `booking_patterns` group of `business_answers` (lines 109-115).
`hour_distribution` and `monthly_distribution` are Python dicts only read
through `.keys()`, `.values()` and `max(...)`; they are embedded as
association lists in insertion order. -/
structure BookingPatterns where
  peak_hour : Nat
  peak_day : String
  peak_month : String
  hour_distribution : List (Nat × Nat)
  monthly_distribution : List (String × Nat)
deriving DecidableEq, Repr, Inhabited

/-- `BusinessAnswers`: the `business_answers` dictionary (lines 93-116). -/
structure BusinessAnswers where
  attendance_by_day : AttendanceByDay
  lead_time_analysis : LeadTimeAnalysis
  booking_patterns : BookingPatterns
deriving DecidableEq, Repr, Inhabited

/-- `load_real_ghl_data` (lines 53-118): returns the literal snapshot
`(contacts_data, events_data, business_answers)`. -/
def load_real_ghl_data : ContactMetrics × EventMetrics × BusinessAnswers :=
  (⟨9599, 1425, 1477, 0.148, 0.154, 0.321,
    [("Establecido", 0.459), ("Reciente", 0.324), ("Nuevo", 0.123),
     ("Muy_Nuevo", 0.065), ("Antiguo", 0.029)]⟩,
   ⟨1034, 60.01, 0.777, 0.067,
    [("Confirmada", 0.769), ("Cancelada", 0.093), ("noshow", 0.083),
     ("showed", 0.055)]⟩,
   ⟨⟨2, 0.667, 16, 0.0, 0.260, 0.215, 0.193⟩,
    ⟨"1-2_Semanas", 0.101, 0.033, 0.029⟩,
    ⟨16, "Wednesday", "July",
     [(16, 78), (19, 78), (17, 74), (21, 68), (14, 65)],
     [("July", 172), ("August", 147), ("April", 135)]⟩⟩)

/-! ### Formatting helpers (Python f-string conversions used by the source) -/

/-- Zero-pads the decimal rendering of `m < 1000` to three digits: the
shape of every comma group after the first in Python `format(n, ",")`. -/
def pad3 (m : Nat) : String :=
  (if m < 10 then "00" else if m < 100 then "0" else "") ++ Nat.repr m

/-- Fuel-indexed worker for `formatThousands`; the fuel only bounds the
recursion depth (each step divides by 1000). -/
def formatThousandsAux : Nat → Nat → String
  | 0, n => Nat.repr n
  | fuel + 1, n =>
      if n < 1000 then Nat.repr n
      else formatThousandsAux fuel (n / 1000) ++ "," ++ pad3 (n % 1000)

/-- Python `f"\x7bn:,\x7d"` on a nonnegative int: decimal digits grouped in
threes from the right, separated by commas. -/
def formatThousands (n : Nat) : String :=
  formatThousandsAux n n

/-- Python `f"\x7bq:.1%\x7d"` on the nonnegative rates of the source: the
value times 100 rendered with one decimal digit and a percent sign.
Python rounds the underlying float half-to-even; none of the literals of
this module lies at a tie, so floor of `q * 1000 + 1/2` agrees with it. -/
def formatPercent1 (q : ℚ) : String :=
  let n : Int := (q * 1000 + 1 / 2).floor
  toString (n / 10) ++ "." ++ toString (n % 10) ++ "%"

/-- Python `f"\x7bh\x7d:00"` (line 164): the hour in plain decimal, no zero
padding, followed by ":00". -/
def formatHour (h : Nat) : String :=
  Nat.repr h ++ ":00"

/-- Python `f"\x7bq:.0f\x7d min"` (line 369). -/
def formatMinutes (q : ℚ) : String :=
  toString (q + 1 / 2).floor ++ " min"

/-- Python `max` over a list (used on `hour_distribution.values()` at
line 187); the source never applies it to an empty collection. -/
def pyMaxNat : List Nat → Nat
  | [] => 0
  | x :: xs => xs.foldl Nat.max x

/-- Python `max` over a list of rationals (line 245 applies it to the
attendance series). -/
def pyMaxQ : List ℚ → ℚ
  | [] => 0
  | x :: xs => xs.foldl max x

/-! ### Substring containment (for claims about rendered text) -/

/-- `strContainsAux pat l` decides whether `pat` occurs as a contiguous
run inside `l`. -/
def strContainsAux (pat : List Char) : List Char → Bool
  | [] => pat.isEmpty
  | c :: rest => pat.isPrefixOf (c :: rest) || strContainsAux pat rest

/-- `strContains s pat` decides whether `pat` occurs as a substring
of `s` (Python `pat in s`). -/
def strContains (s pat : String) : Bool :=
  strContainsAux pat.data s.data

/-! ### Rendered output model -/

/-- One `st.metric(label, value)` call. -/
structure Metric where
  label : String
  value : String
deriving DecidableEq, Repr, Inhabited

/-- One entry of the `insights` list (lines 171-190). -/
structure Insight where
  title : String
  value : String
  description : String
  recommendation : String
deriving DecidableEq, Repr, Inhabited

/-- One `go.Scatter` trace of the lead-time figure `fig2`
(lines 272-289). Plotly draws a trace whose marker dict gives no
`symbol` with the default symbol `"circle"`. -/
structure ScatterTrace where
  xs : List String
  ys : List ℚ
  markerSymbol : String
  name : String
deriving DecidableEq, Repr, Inhabited

/-- The summary page output of `show_executive_summary`
(lines 149-200): the four metric cards and the three insight records
rendered into HTML blocks by the loop at lines 192-200. -/
structure SummaryPage where
  cards : List Metric
  insights : List Insight
deriving DecidableEq, Repr, Inhabited

/-- The business-questions page output of `show_business_questions`
(lines 202-335): Chart A data (days and attendance series plus the
annotation height of line 245), the two traces of Chart B, and the bar
data of Charts C and D. -/
structure BusinessQuestionsPage where
  chartA_days : List Nat
  chartA_rates : List ℚ
  chartA_annotation_y : ℚ
  fig2_traces : List ScatterTrace
  fig3_hours : List Nat
  fig3_counts : List Nat
  fig3_colors : List String
  fig4_months : List String
  fig4_counts : List Nat
deriving DecidableEq, Repr, Inhabited

/-- The segmentation page output of `show_segmentation_metrics`
(lines 337-371): the donut chart data and the six formatted metric
cards. -/
structure SegmentationPage where
  pie_labels : List String
  pie_values : List ℚ
  email_metric : Metric
  phone_metric : Metric
  completeness_metric : Metric
  duration_metric : Metric
  business_hours_metric : Metric
  weekend_metric : Metric
deriving DecidableEq, Repr, Inhabited

/-! ### Page renderers -/

/-- `show_executive_summary` (lines 149-200) as a pure function of the
snapshot: the four `st.metric` cards (lines 157-164) and the three
insight records (lines 171-190). -/
def show_executive_summary (c : ContactMetrics) (e : EventMetrics)
    (b : BusinessAnswers) : SummaryPage :=
  ⟨[⟨"📞 Total Contactos", formatThousands c.total_contacts⟩,
    ⟨"📅 Total Eventos", formatThousands e.total_events⟩,
    ⟨"⏰ Ventana Óptima", b.lead_time_analysis.optimal_window⟩,
    ⟨"🎯 Hora Pico", formatHour b.booking_patterns.peak_hour⟩],
   [⟨"Momento Óptimo del Mes",
     "Día " ++ Nat.repr b.attendance_by_day.mejor_dia,
     formatPercent1 b.attendance_by_day.mejor_tasa ++ " asistencia vs " ++
       formatPercent1 b.attendance_by_day.peor_tasa ++ " en día " ++
       Nat.repr b.attendance_by_day.peor_dia,
     "Concentrar campañas en primera quincena del mes"⟩,
    ⟨"Ventana de Reserva Ideal",
     b.lead_time_analysis.optimal_window,
     formatPercent1 b.lead_time_analysis.optimal_rate ++ " asistencia vs " ++
       formatPercent1 b.lead_time_analysis.same_day_rate ++ " mismo día",
     "Implementar recordatorios automáticos con 1-2 semanas"⟩,
    ⟨"Patrón de Reservas Óptimo",
     b.booking_patterns.peak_day ++ " " ++
       Nat.repr b.booking_patterns.peak_hour ++ ":00",
     "Hora pico con " ++
       Nat.repr (pyMaxNat (b.booking_patterns.hour_distribution.map Prod.snd)) ++
       " reservas",
     "Aumentar disponibilidad miércoles 16:00-17:00"⟩]⟩

/-- The markdown block the loop at lines 192-200 emits for one insight
record (the f-string at lines 193-199). -/
def renderInsightBlock (i : Insight) : String :=
  "\n        <div class=\"insight-card\">\n            <h3>" ++ i.title ++
  "</h3>\n            <h2 style=\"color: #3B82F6;\">" ++ i.value ++
  "</h2>\n            <p><strong>Hallazgo:</strong> " ++ i.description ++
  "</p>\n            <p><strong>💡 Recomendación:</strong> " ++
  i.recommendation ++ "</p>\n        </div>\n        "

/-- The body of the `for day in days` loop at lines 219-229. `u` is the
draw oracle standing for the module-level numpy generator: `u i lo hi`
is the value `np.random.uniform(lo, hi)` returned on the iteration for
day `i` (numpy draws from the half-open interval `[lo, hi)`). -/
def chartARate (u : Nat → ℚ → ℚ → ℚ) (day : Nat) : ℚ :=
  if day = 2 then 66.7
  else if day = 16 then 0.0
  else if day ≤ 10 then u day 20 35
  else if day ≤ 20 then u day 15 25
  else u day 10 20

/-- `days = list(range(1, 32))` (line 216). -/
def chartADays : List Nat := List.range' 1 31

/-- The `attendance_rates` list built by the loop at lines 218-229. -/
def attendance_rates (u : Nat → ℚ → ℚ → ℚ) : List ℚ :=
  chartADays.map (chartARate u)

/-- `lead_times` (line 269): the fixed categorical bucket order of
Chart B. -/
def lead_times : List String :=
  ["Mismo_Día", "1-3_Días", "4-7_Días", "1-2_Semanas", "2-4_Semanas",
   "Más_1_Mes"]

/-- `attendance_by_leadtime` (line 270). -/
def attendance_by_leadtime : List ℚ :=
  [3.3, 4.7, 5.5, 10.1, 8.6, 0.0]

/-- `show_business_questions` (lines 202-335) as a pure function of the
snapshot and the draw oracle `u` of Chart A. -/
def show_business_questions (b : BusinessAnswers)
    (u : Nat → ℚ → ℚ → ℚ) : BusinessQuestionsPage :=
  let rates := attendance_rates u
  ⟨chartADays,
   rates,
   pyMaxQ rates * 1.1,
   [⟨lead_times, attendance_by_leadtime, "circle", "% Asistencia"⟩,
    ⟨["1-2_Semanas"], [10.1], "star", "Punto Óptimo"⟩],
   b.booking_patterns.hour_distribution.map Prod.fst,
   b.booking_patterns.hour_distribution.map Prod.snd,
   (b.booking_patterns.hour_distribution.map Prod.snd).map
     (fun count => if 70 ≤ count then "#F59E0B" else "#6B7280"),
   b.booking_patterns.monthly_distribution.map Prod.fst,
   b.booking_patterns.monthly_distribution.map Prod.snd⟩

/-- `show_segmentation_metrics` (lines 337-371) as a pure function of
the snapshot. -/
def show_segmentation_metrics (c : ContactMetrics) (e : EventMetrics) :
    SegmentationPage :=
  ⟨c.segmentation.map Prod.fst,
   c.segmentation.map (fun kv => kv.2 * 100),
   ⟨"📧 Tasa de Email", formatPercent1 c.email_rate⟩,
   ⟨"📱 Tasa de Teléfono", formatPercent1 c.phone_rate⟩,
   ⟨"📊 Completitud Promedio", formatPercent1 c.avg_completeness⟩,
   ⟨"⏰ Duración Promedio", formatMinutes e.avg_duration⟩,
   ⟨"🏢 Horario Comercial", formatPercent1 e.business_hours_rate⟩,
   ⟨"📅 Fin de Semana", formatPercent1 e.weekend_rate⟩⟩

/-- The navigation enum: the three options of the sidebar selectbox
(lines 137-147). -/
inductive Page where
  | resumen
  | preguntas
  | segmentacion
deriving DecidableEq, Repr, Inhabited

/-- The rendered output of one page. -/
inductive RenderedPage where
  | summary : SummaryPage → RenderedPage
  | questions : BusinessQuestionsPage → RenderedPage
  | segmentation : SegmentationPage → RenderedPage
deriving DecidableEq, Repr, Inhabited

/-- `main` (lines 120-147): load the snapshot and dispatch on the
selected page. -/
def dashboardMain (p : Page) (u : Nat → ℚ → ℚ → ℚ) : RenderedPage :=
  let (c, e, b) := load_real_ghl_data
  match p with
  | .resumen => .summary (show_executive_summary c e b)
  | .preguntas => .questions (show_business_questions b u)
  | .segmentacion => .segmentation (show_segmentation_metrics c e)

/-! ### Spec-side definitions used to state claims -/

/-- The two-digit zero-padded rendering of an hour, as the HH of an
HH:00 clock format reads: "09" for 9, "16" for 16. Stated from the
claim wording, to be compared with `formatHour` from the source. -/
def padHour2 (h : Nat) : String :=
  (if h < 10 then "0" else "") ++ Nat.repr h

/-- Rounding to three decimal places (Python `round(x, 3)`); Python
rounds ties half-to-even, but no value this development applies it to
lies at a tie, where floor of `q * 1000 + 1/2` agrees with it. -/
def roundTo3 (q : ℚ) : ℚ :=
  (((q * 1000 + 1 / 2).floor : ℚ)) / 1000

/-- A syntactically well-formed `BusinessAnswers` whose `peak_hour`
field (0) does not attain the maximum of `hour_distribution`: input
exhibiting that the fourth summary card renders the field itself and
not a key derived from the distribution. -/
def mismatchedAnswers : BusinessAnswers :=
  ⟨⟨2, 0.667, 16, 0.0, 0.260, 0.215, 0.193⟩,
   ⟨"1-2_Semanas", 0.101, 0.033, 0.029⟩,
   ⟨0, "Wednesday", "July", [(16, 78)], [("July", 172)]⟩⟩

/-- A syntactically well-formed `BusinessAnswers` with a one-digit
`peak_hour` (9): input exhibiting that the fourth summary card does not
zero-pad the hour. -/
def earlyPeakAnswers : BusinessAnswers :=
  ⟨⟨2, 0.667, 16, 0.0, 0.260, 0.215, 0.193⟩,
   ⟨"1-2_Semanas", 0.101, 0.033, 0.029⟩,
   ⟨9, "Wednesday", "July",
    [(16, 78), (19, 78), (17, 74), (21, 68), (14, 65)],
    [("July", 172), ("August", 147), ("April", 135)]⟩⟩

/-! ### Lemmas about substring containment -/

theorem isPrefixOf_append_of_isPrefixOf {pat l : List Char} (r : List Char)
    (h : pat.isPrefixOf l = true) : pat.isPrefixOf (l ++ r) = true := by
  induction pat generalizing l with
  | nil => simp [List.isPrefixOf]
  | cons a as ih =>
      cases l with
      | nil => simp [List.isPrefixOf] at h
      | cons b bs =>
          simp only [List.isPrefixOf, List.cons_append, Bool.and_eq_true] at h ⊢
          exact ⟨h.1, ih h.2⟩

theorem isPrefixOf_append_self (pat r : List Char) :
    pat.isPrefixOf (pat ++ r) = true := by
  induction pat with
  | nil => simp [List.isPrefixOf]
  | cons a as ih => simp [List.isPrefixOf, ih]

theorem strContainsAux_nil (l : List Char) : strContainsAux [] l = true := by
  cases l with
  | nil => rfl
  | cons c rest => simp [strContainsAux, List.isPrefixOf]

theorem strContainsAux_append_left {pat l : List Char} (r : List Char)
    (h : strContainsAux pat l = true) : strContainsAux pat (l ++ r) = true := by
  induction l with
  | nil =>
      simp only [strContainsAux, List.isEmpty_iff] at h
      subst h
      simpa using strContainsAux_nil r
  | cons c rest ih =>
      simp only [strContainsAux, Bool.or_eq_true] at h
      rcases h with h | h
      · simp only [List.cons_append, strContainsAux, Bool.or_eq_true]
        exact Or.inl (isPrefixOf_append_of_isPrefixOf r h)
      · simp only [List.cons_append, strContainsAux, Bool.or_eq_true]
        exact Or.inr (ih h)

theorem strContainsAux_append_right {pat : List Char} (l : List Char)
    {r : List Char} (h : strContainsAux pat r = true) :
    strContainsAux pat (l ++ r) = true := by
  induction l with
  | nil => simpa using h
  | cons c rest ih =>
      simp only [List.cons_append, strContainsAux, Bool.or_eq_true]
      exact Or.inr ih

theorem strContains_append_left {s : String} (t : String) {pat : String}
    (h : strContains s pat = true) : strContains (s ++ t) pat = true :=
  strContainsAux_append_left t.data h

theorem strContains_append_right (s : String) {t pat : String}
    (h : strContains t pat = true) : strContains (s ++ t) pat = true :=
  strContainsAux_append_right s.data h

/-! ### Claim theorems -/

/-- C1: for every metrics snapshot, rendering the same page twice
produces identical output for all three pages; the only nondeterminism,
Chart A's random filler, sits behind the injectable draw oracle `u`, so
two runs whose oracles return the same draws (a seeded source) render
identically. -/
theorem rendering_deterministic (c : ContactMetrics) (e : EventMetrics)
    (b : BusinessAnswers) (u1 u2 : Nat → ℚ → ℚ → ℚ)
    (h : ∀ i lo hi, u1 i lo hi = u2 i lo hi) :
    show_executive_summary c e b = show_executive_summary c e b ∧
    show_segmentation_metrics c e = show_segmentation_metrics c e ∧
    show_business_questions b u1 = show_business_questions b u2 := by
  have hu : u1 = u2 := funext fun i => funext fun lo => funext fun hi => h i lo hi
  subst hu
  exact ⟨rfl, rfl, rfl⟩

/-- Witness for C1 at the provider snapshot with a concrete draw
oracle. -/
theorem rendering_deterministic_witness :
    show_executive_summary load_real_ghl_data.1 load_real_ghl_data.2.1
        load_real_ghl_data.2.2 =
      show_executive_summary load_real_ghl_data.1 load_real_ghl_data.2.1
        load_real_ghl_data.2.2 ∧
    show_segmentation_metrics load_real_ghl_data.1 load_real_ghl_data.2.1 =
      show_segmentation_metrics load_real_ghl_data.1 load_real_ghl_data.2.1 ∧
    show_business_questions load_real_ghl_data.2.2 (fun _ lo _ => lo) =
      show_business_questions load_real_ghl_data.2.2 (fun _ lo _ => lo) :=
  rendering_deterministic load_real_ghl_data.1 load_real_ghl_data.2.1
    load_real_ghl_data.2.2 (fun _ lo _ => lo) (fun _ lo _ => lo)
    (fun _ _ _ => rfl)

/-- C6: the segmentation proportions of the provider snapshot sum to
100% (that is, the proportions sum to 1) within a tolerance of 0.1%
(here: exactly). -/
theorem segmentation_sums_to_one :
    |((load_real_ghl_data.1.segmentation.map Prod.snd).foldl (· + ·) 0 : ℚ) -
      1| ≤ 0.001 := by
  norm_num [load_real_ghl_data]

/-- C7: with `total_contacts = 9599` and `total_events = 1034`, the two
headline cards of the summary page render exactly "9,599" and "1,034". -/
theorem headline_cards_thousands (c : ContactMetrics) (e : EventMetrics)
    (b : BusinessAnswers) (h1 : c.total_contacts = 9599)
    (h2 : e.total_events = 1034) :
    ((show_executive_summary c e b).cards.getD 0 ⟨"", ""⟩).value = "9,599" ∧
    ((show_executive_summary c e b).cards.getD 1 ⟨"", ""⟩).value = "1,034" := by
  constructor
  · show formatThousands c.total_contacts = "9,599"
    rw [h1]
    decide
  · show formatThousands e.total_events = "1,034"
    rw [h2]
    decide

/-- Witness for C7 at the provider snapshot. -/
theorem headline_cards_thousands_witness :
    ((show_executive_summary load_real_ghl_data.1 load_real_ghl_data.2.1
        load_real_ghl_data.2.2).cards.getD 0 ⟨"", ""⟩).value = "9,599" ∧
    ((show_executive_summary load_real_ghl_data.1 load_real_ghl_data.2.1
        load_real_ghl_data.2.2).cards.getD 1 ⟨"", ""⟩).value = "1,034" :=
  headline_cards_thousands load_real_ghl_data.1 load_real_ghl_data.2.1
    load_real_ghl_data.2.2 rfl rfl

/-- C10: in the provider snapshot the maximum of `hour_distribution`
is 78, attained by the two distinct keys 16 and 19 and by no other key,
and the `peak_hour` field selects one of them (16). -/
theorem hour_distribution_max_tie :
    pyMaxNat
        (load_real_ghl_data.2.2.booking_patterns.hour_distribution.map
          Prod.snd) = 78 ∧
    (16, 78) ∈ load_real_ghl_data.2.2.booking_patterns.hour_distribution ∧
    (19, 78) ∈ load_real_ghl_data.2.2.booking_patterns.hour_distribution ∧
    (16 : Nat) ≠ 19 ∧
    (∀ p ∈ load_real_ghl_data.2.2.booking_patterns.hour_distribution,
      p.2 = 78 → p.1 = 16 ∨ p.1 = 19) ∧
    load_real_ghl_data.2.2.booking_patterns.peak_hour = 16 := by
  refine ⟨rfl, ?_, ?_, by decide, ?_, rfl⟩
  · simp [load_real_ghl_data]
  · simp [load_real_ghl_data]
  · intro p hp h78
    simp only [load_real_ghl_data, List.mem_cons, List.not_mem_nil,
      or_false] at hp
    rcases hp with h | h | h | h | h <;> subst h <;> simp_all

/-- C2, counterexample: the fourth summary card is not derived from
`hour_distribution`. On a snapshot whose `peak_hour` field (0) does not
attain the maximum of its `hour_distribution` ([(16, 78)]), the card
renders "0:00", which matches no key attaining the maximum. -/
theorem peak_hour_card_not_derived :
    ¬ ∃ p ∈ mismatchedAnswers.booking_patterns.hour_distribution,
        p.2 = pyMaxNat
          (mismatchedAnswers.booking_patterns.hour_distribution.map
            Prod.snd) ∧
        ((show_executive_summary load_real_ghl_data.1 load_real_ghl_data.2.1
            mismatchedAnswers).cards.getD 3 ⟨"", ""⟩).value =
          formatHour p.1 := by
  decide

/-- C2, amended: the fourth summary card renders the snapshot's
`peak_hour` field verbatim (it is an independent field, not a value
derived from `hour_distribution`); on the snapshot the provider
returns, that field does attain the maximum of `hour_distribution`, so
there the card equals a key attaining the maximum. -/
theorem peak_hour_card_renders_field :
    (∀ (c : ContactMetrics) (e : EventMetrics) (b : BusinessAnswers),
      ((show_executive_summary c e b).cards.getD 3 ⟨"", ""⟩).value =
        formatHour b.booking_patterns.peak_hour) ∧
    (∃ p ∈ load_real_ghl_data.2.2.booking_patterns.hour_distribution,
      p.2 = pyMaxNat
        (load_real_ghl_data.2.2.booking_patterns.hour_distribution.map
          Prod.snd) ∧
      ((show_executive_summary load_real_ghl_data.1 load_real_ghl_data.2.1
          load_real_ghl_data.2.2).cards.getD 3 ⟨"", ""⟩).value =
        formatHour p.1) := by
  constructor
  · intro c e b
    rfl
  · decide

/-- C5: Chart B renders two traces; the main trace's x-categories are
exactly the six lead-time buckets in the fixed canonical order of
line 269 — an order that is not alphabetical, witnessed by the entry
at index 3 sorting strictly before the entry at index 2 (its first
character is smaller) — and a second trace marks the 1-2-week point
with a star marker. -/
theorem leadtime_chart_canonical_order (b : BusinessAnswers)
    (u : Nat → ℚ → ℚ → ℚ) :
    ((show_business_questions b u).fig2_traces.map ScatterTrace.xs) =
      [lead_times, ["1-2_Semanas"]] ∧
    lead_times =
      ["Mismo_Día", "1-3_Días", "4-7_Días", "1-2_Semanas", "2-4_Semanas",
       "Más_1_Mes"] ∧
    lead_times.length = 6 ∧
    ((lead_times.getD 3 "").data.getD 0 'z') <
      ((lead_times.getD 2 "").data.getD 0 'z') ∧
    ((show_business_questions b u).fig2_traces.getD 1
        ⟨[], [], "", ""⟩) =
      ⟨["1-2_Semanas"], [10.1], "star", "Punto Óptimo"⟩ := by
  exact ⟨rfl, rfl, rfl, by decide, rfl⟩

/-- C8, counterexample: on a snapshot with the in-range one-digit
`peak_hour` 9, the fourth summary card renders "9:00" and not the
two-digit form "09:00", so the card is not rendered as a two-digit hour
followed by ":00". -/
theorem peak_hour_card_not_zero_padded :
    earlyPeakAnswers.booking_patterns.peak_hour ≤ 23 ∧
    ((show_executive_summary load_real_ghl_data.1 load_real_ghl_data.2.1
        earlyPeakAnswers).cards.getD 3 ⟨"", ""⟩).value = "9:00" ∧
    "9:00" ≠ padHour2 earlyPeakAnswers.booking_patterns.peak_hour ++ ":00" := by
  decide

/-- C8, amended: for every snapshot whose `peak_hour` is an hour in
0..23, the fourth summary card renders the hour in plain decimal
without zero padding, followed by ":00"; the hour part has two digits
exactly when the hour is at least 10. -/
theorem peak_hour_card_unpadded_format (c : ContactMetrics)
    (e : EventMetrics) (b : BusinessAnswers)
    (h : b.booking_patterns.peak_hour ≤ 23) :
    ((show_executive_summary c e b).cards.getD 3 ⟨"", ""⟩).value =
      Nat.repr b.booking_patterns.peak_hour ++ ":00" ∧
    (10 ≤ b.booking_patterns.peak_hour →
      (Nat.repr b.booking_patterns.peak_hour).length = 2) := by
  constructor
  · rfl
  · intro h10
    set n := b.booking_patterns.peak_hour with hn
    interval_cases n <;> decide

/-- Witness for C8 at the provider snapshot (`peak_hour` is 16). -/
theorem peak_hour_card_unpadded_format_witness :
    ((show_executive_summary load_real_ghl_data.1 load_real_ghl_data.2.1
        load_real_ghl_data.2.2).cards.getD 3 ⟨"", ""⟩).value =
      Nat.repr load_real_ghl_data.2.2.booking_patterns.peak_hour ++ ":00" ∧
    (10 ≤ load_real_ghl_data.2.2.booking_patterns.peak_hour →
      (Nat.repr load_real_ghl_data.2.2.booking_patterns.peak_hour).length =
        2) :=
  peak_hour_card_unpadded_format load_real_ghl_data.1 load_real_ghl_data.2.1
    load_real_ghl_data.2.2 (by decide)

/-- C9: the stored contactability rates of the provider snapshot agree
with its stored counts: `email_rate` is 1425/9599 rounded to three
decimal places and `phone_rate` is 1477/9599 rounded to three decimal
places. -/
theorem contact_rates_consistent :
    load_real_ghl_data.1.email_rate =
      roundTo3 ((load_real_ghl_data.1.contacts_with_email : ℚ) /
        (load_real_ghl_data.1.total_contacts : ℚ)) ∧
    load_real_ghl_data.1.phone_rate =
      roundTo3 ((load_real_ghl_data.1.contacts_with_phone : ℚ) /
        (load_real_ghl_data.1.total_contacts : ℚ)) := by
  constructor <;> norm_num [load_real_ghl_data, roundTo3, Rat.floor]

/-- C3: for every draw oracle whose values respect the numpy uniform
ranges, Chart A's attendance series has exactly 31 entries, indexed by
the day list 1..31; the entry for day 2 (index 1) is 66.7, the entry
for day 16 (index 15) is 0.0, and every other entry lies in [20, 35]
for days 1-10, in [15, 25] for days 11-20 and in [10, 20] for
days 21-31. -/
theorem chartA_series_spec (u : Nat → ℚ → ℚ → ℚ)
    (hu : ∀ i lo hi, lo < hi → lo ≤ u i lo hi ∧ u i lo hi < hi) :
    (attendance_rates u).length = 31 ∧
    chartADays = List.range' 1 31 ∧
    (attendance_rates u).getD 1 0 = 66.7 ∧
    (attendance_rates u).getD 15 0 = 0 ∧
    ∀ d, 1 ≤ d → d ≤ 31 → d ≠ 2 → d ≠ 16 →
      ((d ≤ 10 → 20 ≤ (attendance_rates u).getD (d - 1) 0 ∧
          (attendance_rates u).getD (d - 1) 0 ≤ 35) ∧
       (11 ≤ d → d ≤ 20 → 15 ≤ (attendance_rates u).getD (d - 1) 0 ∧
          (attendance_rates u).getD (d - 1) 0 ≤ 25) ∧
       (21 ≤ d → 10 ≤ (attendance_rates u).getD (d - 1) 0 ∧
          (attendance_rates u).getD (d - 1) 0 ≤ 20)) := by
  have key : ∀ i lo hi, lo < hi → lo ≤ u i lo hi ∧ u i lo hi ≤ hi :=
    fun i lo hi h => ⟨(hu i lo hi h).1, le_of_lt (hu i lo hi h).2⟩
  have hget : ∀ d, 1 ≤ d → d ≤ 31 →
      (attendance_rates u).getD (d - 1) 0 = chartARate u d := by
    intro d h1 h31
    interval_cases d <;> rfl
  refine ⟨rfl, rfl, ?_, ?_, ?_⟩
  · show chartARate u 2 = 66.7
    norm_num [chartARate]
  · show chartARate u 16 = 0
    norm_num [chartARate]
  · intro d h1 h31 hne2 hne16
    rw [hget d h1 h31]
    refine ⟨?_, ?_, ?_⟩
    · intro h10
      have hr : chartARate u d = u d 20 35 := by
        unfold chartARate
        rw [if_neg hne2, if_neg hne16, if_pos h10]
      rw [hr]
      exact key d 20 35 (by norm_num)
    · intro h11 h20
      have hr : chartARate u d = u d 15 25 := by
        unfold chartARate
        rw [if_neg hne2, if_neg hne16, if_neg (by omega), if_pos h20]
      rw [hr]
      exact key d 15 25 (by norm_num)
    · intro h21
      have hr : chartARate u d = u d 10 20 := by
        unfold chartARate
        rw [if_neg hne2, if_neg hne16, if_neg (by omega), if_neg (by omega)]
      rw [hr]
      exact key d 10 20 (by norm_num)

/-- Witness for C3 at the draw oracle that always returns the lower
bound of its range. -/
theorem chartA_series_spec_witness :
    (attendance_rates (fun _ lo _ => lo)).length = 31 ∧
    chartADays = List.range' 1 31 ∧
    (attendance_rates (fun _ lo _ => lo)).getD 1 0 = 66.7 ∧
    (attendance_rates (fun _ lo _ => lo)).getD 15 0 = 0 ∧
    ∀ d, 1 ≤ d → d ≤ 31 → d ≠ 2 → d ≠ 16 →
      ((d ≤ 10 →
          20 ≤ (attendance_rates (fun _ lo _ => lo)).getD (d - 1) 0 ∧
          (attendance_rates (fun _ lo _ => lo)).getD (d - 1) 0 ≤ 35) ∧
       (11 ≤ d → d ≤ 20 →
          15 ≤ (attendance_rates (fun _ lo _ => lo)).getD (d - 1) 0 ∧
          (attendance_rates (fun _ lo _ => lo)).getD (d - 1) 0 ≤ 25) ∧
       (21 ≤ d →
          10 ≤ (attendance_rates (fun _ lo _ => lo)).getD (d - 1) 0 ∧
          (attendance_rates (fun _ lo _ => lo)).getD (d - 1) 0 ≤ 20)) :=
  chartA_series_spec (fun _ lo _ => lo)
    (fun _ lo _ h => ⟨le_refl lo, h⟩)

/-- C4: with `optimal_window = "1-2_Semanas"` and
`optimal_rate = 0.101`, the rendered HTML string of the lead-time
insight block of the summary page contains the substring "10.1%" and
contains the literal window label "1-2_Semanas". -/
theorem leadtime_insight_contains (c : ContactMetrics) (e : EventMetrics)
    (b : BusinessAnswers)
    (h1 : b.lead_time_analysis.optimal_window = "1-2_Semanas")
    (h2 : b.lead_time_analysis.optimal_rate = 0.101) :
    strContains
        (renderInsightBlock
          ((show_executive_summary c e b).insights.getD 1
            ⟨"", "", "", ""⟩)) "10.1%" = true ∧
    strContains
        (renderInsightBlock
          ((show_executive_summary c e b).insights.getD 1
            ⟨"", "", "", ""⟩)) "1-2_Semanas" = true := by
  have hp : formatPercent1 (0.101 : ℚ) = "10.1%" := by
    norm_num [formatPercent1, Rat.floor]
    rfl
  have hblock : renderInsightBlock
      ((show_executive_summary c e b).insights.getD 1 ⟨"", "", "", ""⟩) =
      renderInsightBlock
        ⟨"Ventana de Reserva Ideal",
         b.lead_time_analysis.optimal_window,
         formatPercent1 b.lead_time_analysis.optimal_rate ++
           " asistencia vs " ++
           formatPercent1 b.lead_time_analysis.same_day_rate ++
           " mismo día",
         "Implementar recordatorios automáticos con 1-2 semanas"⟩ := rfl
  rw [hblock, h1, h2, hp]
  simp only [renderInsightBlock]
  constructor
  · apply strContains_append_left
    apply strContains_append_left
    apply strContains_append_left
    apply strContains_append_right
    apply strContains_append_left
    apply strContains_append_left
    apply strContains_append_left
    decide
  · apply strContains_append_left
    apply strContains_append_left
    apply strContains_append_left
    apply strContains_append_left
    apply strContains_append_left
    apply strContains_append_right
    decide

/-- Witness for C4 at the provider snapshot. -/
theorem leadtime_insight_contains_witness :
    strContains
        (renderInsightBlock
          ((show_executive_summary load_real_ghl_data.1
              load_real_ghl_data.2.1 load_real_ghl_data.2.2).insights.getD 1
            ⟨"", "", "", ""⟩)) "10.1%" = true ∧
    strContains
        (renderInsightBlock
          ((show_executive_summary load_real_ghl_data.1
              load_real_ghl_data.2.1 load_real_ghl_data.2.2).insights.getD 1
            ⟨"", "", "", ""⟩)) "1-2_Semanas" = true :=
  leadtime_insight_contains load_real_ghl_data.1 load_real_ghl_data.2.1
    load_real_ghl_data.2.2 rfl rfl

end Doda
